import Mathlib

/-!
Verification of the tank-battle game engine (`src/game/constants.js`,
`src/game/Tank.js`, `src/game/Wall.js`, `src/game/Bullet.js`,
`src/game/GameEngine.js`, `src/game/mapGenerator.js`).

All simulation happens in the design-resolution coordinate space; JS numbers
are modelled as rationals (ℚ).  The 0.5-unit collision tolerance of
`Tank.move` is therefore represented exactly.  The map generator's
`pseudoRandom` helper evaluates `Math.sin` on IEEE doubles; since transcendental
floating-point functions have no exact shallow embedding, the generator is
parameterized over that hash function (`pr : ℕ → ℕ`); concrete instantiations
used below tabulate the actual double-precision values of the source function.
-/

set_option maxRecDepth 100000

namespace TankBattle

/-- Direction enum (`DIR` in constants.js). -/
inductive Dir
  | UP
  | DOWN
  | LEFT
  | RIGHT
deriving DecidableEq

/-- Game state enum (`GAME_STATE` in constants.js). -/
inductive GState
  | MENU
  | PLAYING
  | PAUSED
  | GAME_OVER
  | LEVEL_CLEAR
deriving DecidableEq

/-- Wall type enum (`WALL_TYPE` in constants.js). -/
inductive WallType
  | BRICK
  | STEEL
deriving DecidableEq

-- ---- constants.js ----
def DESIGN_WIDTH : ℚ := 1280
def DESIGN_HEIGHT : ℚ := 720
def TANK_SIZE : ℚ := 32
def TANK_SPEED : ℚ := 2
def TANK_FIRE_COOLDOWN : ℚ := 300
def PLAYER_MAX_LIVES : ℤ := 3
def ENEMY_SPEED : ℚ := 2
def ENEMY_FIRE_COOLDOWN : ℚ := 1500
def MAX_ENEMIES : ℕ := 4
def ENEMY_SPAWN_INTERVAL : ℚ := 3000
def ENEMIES_PER_LEVEL : ℕ := 8
def BULLET_SIZE : ℚ := 6
def BULLET_SPEED : ℚ := 6
def WALL_SIZE : ℚ := 36
def COLOR_PLAYER : String := "#00CC44"
def COLOR_ENEMY : String := "#DD3333"
def COLOR_BULLET_PLAYER : String := "#FFFF00"
def COLOR_BULLET_ENEMY : String := "#FF8800"

/-- Axis-aligned bounding box `{x, y, w, h}`. -/
structure Rect where
  x : ℚ
  y : ℚ
  w : ℚ
  h : ℚ

/-- `rectsOverlap` from Tank.js: strict-inequality AABB overlap test. -/
def rectsOverlap (a b : Rect) : Bool :=
  decide (a.x < b.x + b.w) && decide (a.x + a.w > b.x) &&
  decide (a.y < b.y + b.h) && decide (a.y + a.h > b.y)

/-- JS `Math.round` (rounds half toward +∞). -/
def jsRound (q : ℚ) : ℤ := ⌊q + 1 / 2⌋

/-- `snapToGrid` from Tank.js: `Math.round(val / WALL_SIZE) * WALL_SIZE`. -/
def snapToGrid (val : ℚ) : ℚ := (jsRound (val / WALL_SIZE) : ℚ) * WALL_SIZE

/-- Wall entity (Wall.js). -/
structure Wall where
  x : ℚ
  y : ℚ
  size : ℚ
  type : WallType
  alive : Bool
  destructible : Bool
deriving DecidableEq

/-- The Wall constructor: `size = WALL_SIZE`, `alive = true`,
`destructible = (type === WALL_TYPE.BRICK)`. -/
def Wall.make (x y : ℚ) (type : WallType) : Wall :=
  ⟨x, y, WALL_SIZE, type, true, decide (type = WallType.BRICK)⟩

def Wall.getBounds (w : Wall) : Rect := ⟨w.x, w.y, w.size, w.size⟩

/-- Bullet entity (Bullet.js). -/
structure Bullet where
  x : ℚ
  y : ℚ
  direction : Dir
  isPlayerBullet : Bool
  color : String
  size : ℚ
  speed : ℚ
  alive : Bool
deriving DecidableEq

def Bullet.getBounds (b : Bullet) : Rect := ⟨b.x, b.y, b.size, b.size⟩

/-- Destination of one `Bullet.update` step: advance by `speed` along
the bullet's direction (the `switch` in Bullet.js `update`). -/
def Bullet.dest (b : Bullet) : ℚ × ℚ :=
  match b.direction with
  | Dir.UP => (b.x, b.y - b.speed)
  | Dir.DOWN => (b.x, b.y + b.speed)
  | Dir.LEFT => (b.x - b.speed, b.y)
  | Dir.RIGHT => (b.x + b.speed, b.y)

/-- The out-of-bounds test of Bullet.js `update`:
`x < -size || x > DESIGN_WIDTH + size || y < -size || y > DESIGN_HEIGHT + size`. -/
def outOfWorld (x y size : ℚ) : Bool :=
  decide (x < -size) || decide (DESIGN_WIDTH + size < x) ||
  decide (y < -size) || decide (DESIGN_HEIGHT + size < y)

/-- `Bullet.update`: a dead bullet returns immediately; otherwise the position
advances along the direction and `alive` is set to `false` exactly when the new
position is out of bounds by more than the bullet's size. -/
def Bullet.update (b : Bullet) : Bullet :=
  if b.alive = false then b
  else
    let d := b.dest
    { b with x := d.1, y := d.2,
             alive := if outOfWorld d.1 d.2 b.size then false else b.alive }

/-- Tank entity (Tank.js).  `aiDirectionInterval` is initialized from
`Math.random()` in the constructor; the constructor below takes that draw as an
explicit parameter. -/
structure Tank where
  x : ℚ
  y : ℚ
  direction : Dir
  isPlayer : Bool
  speed : ℚ
  fireCooldown : ℚ
  color : String
  bulletColor : String
  lastFireTime : ℚ
  alive : Bool
  size : ℚ
  invincibleUntil : ℚ
  aiDirectionTimer : ℚ
  aiDirectionInterval : ℚ
deriving DecidableEq

/-- The Tank constructor (`new Tank(x, y, direction, isPlayer)`); `randDraw`
stands for the `Math.random()` call feeding `aiDirectionInterval`. -/
def Tank.make (x y : ℚ) (direction : Dir) (isPlayer : Bool) (randDraw : ℚ) : Tank :=
  { x := x, y := y, direction := direction, isPlayer := isPlayer
    speed := if isPlayer then TANK_SPEED else ENEMY_SPEED
    fireCooldown := if isPlayer then TANK_FIRE_COOLDOWN else ENEMY_FIRE_COOLDOWN
    color := if isPlayer then COLOR_PLAYER else COLOR_ENEMY
    bulletColor := if isPlayer then COLOR_BULLET_PLAYER else COLOR_BULLET_ENEMY
    lastFireTime := 0
    alive := true
    size := TANK_SIZE
    invincibleUntil := 0
    aiDirectionTimer := 0
    aiDirectionInterval := 1500 + randDraw * 1500 }

def Tank.getBounds (t : Tank) : Rect := ⟨t.x, t.y, t.size, t.size⟩

/-- `Tank.isInvincible(now)`: `now < invincibleUntil`. -/
def Tank.isInvincible (t : Tank) (now : ℚ) : Bool := decide (now < t.invincibleUntil)

def Dir.isVertical : Dir → Bool
  | Dir.UP => true
  | Dir.DOWN => true
  | _ => false

/-- First phase of `Tank.move`: commit the new facing direction; when the
movement axis changes (horizontal↔vertical), snap the off-axis coordinate to
the nearest `WALL_SIZE` grid line. -/
def Tank.snapPhase (t : Tank) (dir : Dir) : Tank :=
  let axisChanged := t.direction.isVertical != dir.isVertical
  if axisChanged then
    if dir.isVertical then { t with direction := dir, x := snapToGrid t.x }
    else { t with direction := dir, y := snapToGrid t.y }
  else { t with direction := dir }

/-- Tentative x after advancing by `speed` along `dir` and clamping to
`[0, DESIGN_WIDTH - size]` (the `switch` plus `Math.max/Math.min` in move). -/
def Tank.tentativeX (t1 : Tank) (dir : Dir) : ℚ :=
  let nx := match dir with
    | Dir.LEFT => t1.x - t1.speed
    | Dir.RIGHT => t1.x + t1.speed
    | _ => t1.x
  max 0 (min (DESIGN_WIDTH - t1.size) nx)

/-- Tentative y after advancing by `speed` along `dir` and clamping to
`[0, DESIGN_HEIGHT - size]`. -/
def Tank.tentativeY (t1 : Tank) (dir : Dir) : ℚ :=
  let ny := match dir with
    | Dir.UP => t1.y - t1.speed
    | Dir.DOWN => t1.y + t1.speed
    | _ => t1.y
  max 0 (min (DESIGN_HEIGHT - t1.size) ny)

/-- The tentative collision rectangle of `Tank.move`, shrunk by the 0.5-unit
`TOLERANCE` on each side. -/
def shrinkBounds (nx ny size : ℚ) : Rect :=
  ⟨nx + 1 / 2, ny + 1 / 2, size - 1, size - 1⟩

/-- The two collision loops of `Tank.move`: blocked iff the tentative rectangle
overlaps some alive wall or some alive other tank.  The JS loop skips
`tank === this` by reference identity; `others` is therefore the tank list with
the moving tank itself removed. -/
def Tank.moveBlocked (t1 : Tank) (nb : Rect) (walls : List Wall) (others : List Tank) : Bool :=
  walls.any (fun w => w.alive && rectsOverlap nb w.getBounds) ||
  others.any (fun o => o.alive && rectsOverlap nb o.getBounds)

/-- Whether a `Tank.move` call passes all collision tests (and hence commits
the advanced position). -/
def Tank.moveCommits (t : Tank) (dir : Dir) (walls : List Wall) (others : List Tank) : Bool :=
  let t1 := t.snapPhase dir
  !(t1.moveBlocked (shrinkBounds (t1.tentativeX dir) (t1.tentativeY dir) t1.size) walls others)

/-- `Tank.move(dir, walls, tanks)` from Tank.js. -/
def Tank.move (t : Tank) (dir : Dir) (walls : List Wall) (others : List Tank) : Tank :=
  if t.alive = false then t
  else
    let t1 := t.snapPhase dir
    let nx := t1.tentativeX dir
    let ny := t1.tentativeY dir
    if t1.moveBlocked (shrinkBounds nx ny t1.size) walls others then t1
    else { t1 with x := nx, y := ny }

/-- The bullet spawned by a successful `Tank.fire`: positioned at the muzzle
point (centered on the facing edge, offset one bullet-size outside the body),
carrying the tank's owner flag and bullet color. -/
def Tank.muzzleBullet (t : Tank) : Bullet :=
  let halfTank := t.size / 2
  let halfBullet := BULLET_SIZE / 2
  match t.direction with
  | Dir.UP =>
      ⟨t.x + halfTank - halfBullet, t.y - BULLET_SIZE, t.direction, t.isPlayer,
        t.bulletColor, BULLET_SIZE, BULLET_SPEED, true⟩
  | Dir.DOWN =>
      ⟨t.x + halfTank - halfBullet, t.y + t.size, t.direction, t.isPlayer,
        t.bulletColor, BULLET_SIZE, BULLET_SPEED, true⟩
  | Dir.LEFT =>
      ⟨t.x - BULLET_SIZE, t.y + halfTank - halfBullet, t.direction, t.isPlayer,
        t.bulletColor, BULLET_SIZE, BULLET_SPEED, true⟩
  | Dir.RIGHT =>
      ⟨t.x + t.size, t.y + halfTank - halfBullet, t.direction, t.isPlayer,
        t.bulletColor, BULLET_SIZE, BULLET_SPEED, true⟩

/-- `Tank.fire(now)`: returns the spawned bullet (if any) together with the
updated tank state. -/
def Tank.fire (t : Tank) (now : ℚ) : Option Bullet × Tank :=
  if t.alive = false then (none, t)
  else if now - t.lastFireTime < t.fireCooldown then (none, t)
  else (some t.muzzleBullet, { t with lastFireTime := now })

/-- Explosion record (`_addExplosion` in GameEngine.js). -/
structure Explosion where
  x : ℚ
  y : ℚ
  radius : ℚ
  maxRadius : ℚ
  alpha : ℚ
  color : String
deriving DecidableEq

/-- `_addExplosion(x, y, maxRadius, color)`: radius starts at 2, alpha at 1. -/
def Explosion.make (x y maxRadius : ℚ) (color : String) : Explosion :=
  ⟨x, y, 2, maxRadius, 1, color⟩

-- ---- mapGenerator.js ----

/-- `Math.floor(DESIGN_WIDTH / WALL_SIZE)` = 35. -/
def COLS : ℕ := 1280 / 36

/-- `Math.floor(DESIGN_HEIGHT / WALL_SIZE)` = 20. -/
def ROWS : ℕ := 720 / 36

/-- `getPlayerSpawn()`: centre column, third row from the bottom. -/
def getPlayerSpawn : ℚ × ℚ :=
  (((COLS / 2 : ℕ) : ℚ) * WALL_SIZE, (((ROWS - 3 : ℕ)) : ℚ) * WALL_SIZE)

/-- `getEnemySpawnPoints()`: three fixed points on row 2. -/
def getEnemySpawnPoints : List (ℚ × ℚ) :=
  [((2 : ℚ) * WALL_SIZE, (2 : ℚ) * WALL_SIZE),
   (((COLS / 2 : ℕ) : ℚ) * WALL_SIZE, (2 : ℚ) * WALL_SIZE),
   (((COLS - 3 : ℕ) : ℚ) * WALL_SIZE, (2 : ℚ) * WALL_SIZE)]

/-- `isReserved(c, r)` from `generateMap`: the 3×3 zones around the player
spawn cell and around each of the three enemy spawn cells. -/
def isReserved (c r : ℕ) : Bool :=
  let playerSpawnCol : ℤ := (COLS : ℤ) / 2
  let playerSpawnRow : ℤ := (ROWS : ℤ) - 3
  (decide (((c : ℤ) - playerSpawnCol).natAbs ≤ 1) &&
   decide (((r : ℤ) - playerSpawnRow).natAbs ≤ 1)) ||
  ([((2 : ℤ), (2 : ℤ)), ((COLS : ℤ) / 2, 2), ((COLS : ℤ) - 3, 2)].any fun sp =>
    decide (((c : ℤ) - sp.1).natAbs ≤ 1) && decide (((r : ℤ) - sp.2).natAbs ≤ 1))

/-- Step 1 of `generateMap`: the STEEL border ring, in source push order
(top/bottom interleaved per column, then left/right interleaved per row). -/
def borderWalls : List Wall :=
  ((List.range COLS).flatMap fun c =>
    [Wall.make ((c : ℚ) * WALL_SIZE) 0 WallType.STEEL,
     Wall.make ((c : ℚ) * WALL_SIZE) (((ROWS - 1 : ℕ) : ℚ) * WALL_SIZE) WallType.STEEL]) ++
  ((List.range' 1 (ROWS - 2)).flatMap fun r =>
    [Wall.make 0 ((r : ℚ) * WALL_SIZE) WallType.STEEL,
     Wall.make (((COLS - 1 : ℕ) : ℚ) * WALL_SIZE) ((r : ℚ) * WALL_SIZE) WallType.STEEL])

/-- The structural-grid wall (if any) that `generateMap` places at interior
cell `(c, r)`, given the level's seed and spacing.  `pr` is the `pseudoRandom`
hash (see the module header). -/
def structuralWallAt (pr : ℕ → ℕ) (level seed rowSpacing colSpacing r c : ℕ) : Option Wall :=
  if isReserved c r then none
  else
    let isStructRow := (r - 2) % rowSpacing == 0
    let isStructCol := (c - 2) % colSpacing == 0
    if isStructRow && isStructCol then
      some (Wall.make ((c : ℚ) * WALL_SIZE) ((r : ℚ) * WALL_SIZE)
        (if pr (c * seed + r * 13) % 5 == 0 then WallType.STEEL else WallType.BRICK))
    else if isStructRow && !isStructCol then
      if pr (c * seed + r * 17 + level) % 3 != 0 then
        some (Wall.make ((c : ℚ) * WALL_SIZE) ((r : ℚ) * WALL_SIZE) WallType.BRICK)
      else none
    else if !isStructRow && isStructCol then
      if pr (c * 19 + r * seed + level) % 4 == 0 then
        some (Wall.make ((c : ℚ) * WALL_SIZE) ((r : ℚ) * WALL_SIZE) WallType.BRICK)
      else none
    else none

/-- Steps 2–3 of `generateMap`: the structural interior walls, rows
`2 ≤ r < ROWS - 2`, columns `2 ≤ c < COLS - 2`, row-major. -/
def structuralWalls (pr : ℕ → ℕ) (level : ℕ) : List Wall :=
  let seed := level * 7 + 3
  let rowSpacing := max 3 (5 - level / 3)
  let colSpacing := max 3 (5 - level / 3)
  (List.range' 2 (ROWS - 4)).flatMap fun r =>
    (List.range' 2 (COLS - 4)).filterMap fun c =>
      structuralWallAt pr level seed rowSpacing colSpacing r c

/-- Step 4 of `generateMap`: `min(level, 5)` pseudo-random picks of an interior
cell; a STEEL wall is pushed for each pick whose cell is not reserved. -/
def extraSteelWalls (pr : ℕ → ℕ) (level : ℕ) : List Wall :=
  (List.range (min level 5)).filterMap fun i =>
    let c := 2 + pr (i * 31 + level * 7) % (COLS - 4)
    let r := 2 + pr (i * 37 + level * 11) % (ROWS - 4)
    if isReserved c r then none
    else some (Wall.make ((c : ℚ) * WALL_SIZE) ((r : ℚ) * WALL_SIZE) WallType.STEEL)

/-- `generateMap(level)`, parameterized over the `pseudoRandom` hash. -/
def generateMap (pr : ℕ → ℕ) (level : ℕ) : List Wall :=
  borderWalls ++ structuralWalls pr level ++ extraSteelWalls pr level

-- ---- GameEngine.js ----

/-- The engine fields touched by collision resolution and enemy spawning. -/
structure EngineState where
  gstate : GState
  score : ℤ
  lives : ℤ
  level : ℕ
  enemiesDestroyed : ℕ
  totalEnemiesSpawned : ℕ
  player : Option Tank
  enemies : List Tank
  bullets : List Bullet
  walls : List Wall
  explosions : List Explosion
  lastEnemySpawnTime : ℚ
deriving DecidableEq

/-- Result of the bullet-vs-walls loop in `_checkCollisions`. -/
structure WallScan where
  hit : Bool
  walls : List Wall
  exps : List Explosion

/-- The bullet-vs-walls loop: the first alive overlapping wall kills the
bullet; a BRICK wall dies with an explosion at its centre, a STEEL wall
survives with a spark at the bullet position. -/
def scanWalls (b : Bullet) : List Wall → WallScan
  | [] => ⟨false, [], []⟩
  | w :: ws =>
    if w.alive && rectsOverlap b.getBounds w.getBounds then
      if w.destructible then
        ⟨true, { w with alive := false } :: ws,
         [Explosion.make (w.x + w.size / 2) (w.y + w.size / 2) 12 "#AA6633"]⟩
      else
        ⟨true, w :: ws, [Explosion.make b.x b.y 6 "#CCCCCC"]⟩
    else
      let r := scanWalls b ws
      ⟨r.hit, w :: r.walls, r.exps⟩

/-- Result of the player-bullet-vs-enemies loop in `_checkCollisions`. -/
structure EnemyScan where
  hit : Bool
  enemies : List Tank
  exps : List Explosion

/-- The player-bullet-vs-enemies loop: the first alive overlapping enemy dies
with an explosion at its centre. -/
def scanEnemies (b : Bullet) : List Tank → EnemyScan
  | [] => ⟨false, [], []⟩
  | e :: es =>
    if e.alive && rectsOverlap b.getBounds e.getBounds then
      ⟨true, { e with alive := false } :: es,
       [Explosion.make (e.x + e.size / 2) (e.y + e.size / 2) 25 "#FF4400"]⟩
    else
      let r := scanEnemies b es
      ⟨r.hit, e :: r.enemies, r.exps⟩

/-- One iteration of the `for (const bullet of this.bullets)` loop of
`_checkCollisions(now)`: walls, then opposing tanks. -/
def collideOneBullet (now : ℚ) (s : EngineState) (b : Bullet) : EngineState × Bullet :=
  if b.alive = false then (s, b)
  else
    let ws := scanWalls b s.walls
    if ws.hit then
      ({ s with walls := ws.walls, explosions := s.explosions ++ ws.exps },
       { b with alive := false })
    else if b.isPlayerBullet then
      let es := scanEnemies b s.enemies
      if es.hit then
        ({ s with enemies := es.enemies, score := s.score + 100,
                  enemiesDestroyed := s.enemiesDestroyed + 1,
                  explosions := s.explosions ++ es.exps },
         { b with alive := false })
      else (s, b)
    else
      match s.player with
      | none => (s, b)
      | some p =>
        if p.alive && !p.isInvincible now && rectsOverlap b.getBounds p.getBounds then
          let lives' := s.lives - 1
          let exps' := s.explosions ++
            [Explosion.make (p.x + p.size / 2) (p.y + p.size / 2) 25 "#00FF66"]
          if lives' ≤ 0 then
            ({ s with lives := lives', explosions := exps',
                      player := some { p with alive := false },
                      gstate := GState.GAME_OVER },
             { b with alive := false })
          else
            ({ s with lives := lives', explosions := exps',
                      player := some { p with x := getPlayerSpawn.1, y := getPlayerSpawn.2,
                                              direction := Dir.UP,
                                              invincibleUntil := now + 2000 } },
             { b with alive := false })
        else (s, b)

/-- The bullet loop of `_checkCollisions`, threading the engine state and
collecting the (possibly killed) bullets in order. -/
def collideBullets (now : ℚ) (s : EngineState) : List Bullet → EngineState × List Bullet
  | [] => (s, [])
  | b :: bs =>
    let r1 := collideOneBullet now s b
    let r2 := collideBullets now r1.1 bs
    (r2.1, r1.2 :: r2.2)

/-- `_checkCollisions(now)`. -/
def checkCollisions (now : ℚ) (s : EngineState) : EngineState :=
  let r := collideBullets now s s.bullets
  { r.1 with bullets := r.2 }

/-- The occupied-spawn-point test of `_spawnEnemies`:
`[...this.enemies, this.player].some(t => t && t.alive && rectsOverlap(...))`
against a hard-coded 36×36 box at the spawn point. -/
def spawnBlocked (s : EngineState) (sp : ℚ × ℚ) : Bool :=
  let testBounds : Rect := ⟨sp.1, sp.2, 36, 36⟩
  s.enemies.any (fun t => t.alive && rectsOverlap testBounds t.getBounds) ||
  (match s.player with
   | some p => p.alive && rectsOverlap testBounds p.getBounds
   | none => false)

/-- `_spawnEnemies(now)`.  `randDraw` stands for the `Math.random()` draw made
by the Tank constructor when an enemy is actually created. -/
def spawnEnemies (now randDraw : ℚ) (s : EngineState) : EngineState :=
  if ENEMIES_PER_LEVEL ≤ s.totalEnemiesSpawned then s
  else if MAX_ENEMIES ≤ s.enemies.length then s
  else if now - s.lastEnemySpawnTime < ENEMY_SPAWN_INTERVAL then s
  else
    let s1 := { s with lastEnemySpawnTime := now }
    let sp := getEnemySpawnPoints.getD (s1.totalEnemiesSpawned % getEnemySpawnPoints.length) (0, 0)
    if spawnBlocked s1 sp then s1
    else
      let enemy := { Tank.make sp.1 sp.2 Dir.DOWN false randDraw with aiDirectionTimer := now }
      { s1 with enemies := s1.enemies ++ [enemy],
                totalEnemiesSpawned := s1.totalEnemiesSpawned + 1 }

-- ============================================================
-- Helper lemmas
-- ============================================================

/-- `v` is a multiple of the wall-cell size that minimizes the distance to `q`
(the formal reading of "the nearest multiple of the cell size"). -/
def IsNearestGridMultiple (v q : ℚ) : Prop :=
  (∃ k : ℤ, v = WALL_SIZE * (k : ℚ)) ∧ ∀ m : ℤ, |v - q| ≤ |WALL_SIZE * (m : ℚ) - q|

lemma abs_sub_jsRound_le (u : ℚ) (m : ℤ) :
    |(jsRound u : ℚ) - u| ≤ |(m : ℚ) - u| := by
  have h1 : (jsRound u : ℚ) ≤ u + 1 / 2 := Int.floor_le _
  have h2 : u + 1 / 2 < (jsRound u : ℚ) + 1 := Int.lt_floor_add_one _
  have habs : |(jsRound u : ℚ) - u| ≤ 1 / 2 := abs_le.2 ⟨by linarith, by linarith⟩
  rcases lt_trichotomy m (jsRound u) with hm | hm | hm
  · have hm1 : (m : ℚ) + 1 ≤ (jsRound u : ℚ) := by exact_mod_cast Int.add_one_le_iff.mpr hm
    have he : |(m : ℚ) - u| = u - m := by
      rw [abs_sub_comm]; exact abs_of_nonneg (by linarith)
    rw [he]; linarith [abs_le.1 habs]
  · rw [hm]
  · have hm1 : (jsRound u : ℚ) + 1 ≤ (m : ℚ) := by exact_mod_cast Int.add_one_le_iff.mpr hm
    have he : |(m : ℚ) - u| = (m : ℚ) - u := abs_of_nonneg (by linarith)
    rw [he]; linarith [abs_le.1 habs]

lemma snapToGrid_nearest (q : ℚ) : IsNearestGridMultiple (snapToGrid q) q := by
  constructor
  · exact ⟨jsRound (q / WALL_SIZE), by rw [snapToGrid, mul_comm]⟩
  · intro m
    have h36 : (WALL_SIZE : ℚ) = 36 := rfl
    have e1 : snapToGrid q - q =
        WALL_SIZE * ((jsRound (q / WALL_SIZE) : ℚ) - q / WALL_SIZE) := by
      rw [snapToGrid, h36]; ring
    have e2 : WALL_SIZE * (m : ℚ) - q = WALL_SIZE * ((m : ℚ) - q / WALL_SIZE) := by
      rw [h36]; ring
    rw [e1, e2, abs_mul, abs_mul]
    exact mul_le_mul_of_nonneg_left (abs_sub_jsRound_le (q / WALL_SIZE) m) (abs_nonneg _)

-- ============================================================
-- Claim theorems
-- ============================================================

/-- Claim C10: for every tank with `alive = false` and every timestamp `now`,
`fire(now)` returns no bullet and leaves every field of the tank (including
`lastFireTime`) unchanged. -/
theorem fire_dead_tank_noop (t : Tank) (now : ℚ) (h : t.alive = false) :
    Tank.fire t now = (none, t) := by
  simp [Tank.fire, h]

theorem fire_dead_tank_noop_witness :
    Tank.fire { Tank.make 10 10 Dir.UP false 0 with alive := false } 500 =
      (none, { Tank.make 10 10 Dir.UP false 0 with alive := false }) :=
  fire_dead_tank_noop _ 500 rfl

/-- Claim C7 (amended): for every alive tank, `fire(now)` returns no bullet
and changes nothing while the cooldown has not elapsed, and otherwise stamps
`lastFireTime = now` and returns the muzzle bullet (owner flag, bullet color,
muzzle position by facing direction).  Consequently, *provided the first of two
calls returns a bullet*, a second call less than the cooldown later returns no
bullet, and a second call at least the cooldown later returns a bullet. -/
theorem fire_contract (t : Tank) (now : ℚ) (halive : t.alive = true) :
    (now - t.lastFireTime < t.fireCooldown → Tank.fire t now = (none, t)) ∧
    (t.fireCooldown ≤ now - t.lastFireTime →
      Tank.fire t now = (some t.muzzleBullet, { t with lastFireTime := now })) ∧
    (∀ now2 : ℚ, t.fireCooldown ≤ now - t.lastFireTime → now2 - now < t.fireCooldown →
      (Tank.fire ((Tank.fire t now).2) now2).1 = none) ∧
    (∀ now2 : ℚ, t.fireCooldown ≤ now - t.lastFireTime → t.fireCooldown ≤ now2 - now →
      ((Tank.fire ((Tank.fire t now).2) now2).1).isSome = true) := by
  refine ⟨?_, ?_, ?_, ?_⟩
  · intro h
    simp [Tank.fire, halive, h]
  · intro h
    simp [Tank.fire, halive, not_lt.2 h]
  · intro now2 h1 h2
    have hfire : Tank.fire t now = (some t.muzzleBullet, { t with lastFireTime := now }) := by
      simp [Tank.fire, halive, not_lt.2 h1]
    rw [hfire]
    simp [Tank.fire, halive, h2]
  · intro now2 h1 h2
    have hfire : Tank.fire t now = (some t.muzzleBullet, { t with lastFireTime := now }) := by
      simp [Tank.fire, halive, not_lt.2 h1]
    rw [hfire]
    simp [Tank.fire, halive, not_lt.2 h2]

theorem fire_contract_witness :
    Tank.fire (Tank.make 50 50 Dir.RIGHT true 0) 1000 =
      (some (Tank.muzzleBullet (Tank.make 50 50 Dir.RIGHT true 0)),
       { Tank.make 50 50 Dir.RIGHT true 0 with lastFireTime := 1000 }) ∧
    (Tank.fire ((Tank.fire (Tank.make 50 50 Dir.RIGHT true 0) 1000).2) 1200).1 = none :=
  ⟨(fire_contract (Tank.make 50 50 Dir.RIGHT true 0) 1000 rfl).2.1
     (by with_unfolding_all decide),
   (fire_contract (Tank.make 50 50 Dir.RIGHT true 0) 1000 rfl).2.2.1 1200
     (by with_unfolding_all decide) (by with_unfolding_all decide)⟩

/-- Claim C7 counterexample: the sentence "of two `fire()` calls less than the
cooldown apart the second returns no bullet" fails when the first call itself
was rejected by the cooldown: a fresh player tank (`lastFireTime = 0`,
cooldown 300) fired at `now = 200` and again at `now = 400` (only 200 ms
apart) returns a bullet on the second call. -/
theorem fire_second_call_within_cooldown_returns_bullet :
    ((400 : ℚ) - 200 < TANK_FIRE_COOLDOWN) ∧
    ((Tank.fire ((Tank.fire (Tank.make 100 100 Dir.UP true 0) 200).2) 400).1).isSome = true := by
  constructor
  · with_unfolding_all decide
  · with_unfolding_all decide

/-- Claim C9: a dead bullet is a fixed point of `update` (so `alive` stays
`false` forever); an alive bullet advances by its fixed speed along its
direction, and its `alive` flag becomes `false` on exactly the update that
leaves the new position out of the design-resolution bounds by more than the
bullet's own size. -/
theorem bullet_update_contract (b : Bullet) :
    (b.alive = false → ∀ n : ℕ, Bullet.update^[n] b = b) ∧
    (b.alive = true →
      (Bullet.update b).x = b.dest.1 ∧ (Bullet.update b).y = b.dest.2 ∧
      ((Bullet.update b).alive = false ↔ outOfWorld b.dest.1 b.dest.2 b.size = true)) := by
  constructor
  · intro h n
    have hu : Bullet.update b = b := by simp [Bullet.update, h]
    induction n with
    | zero => rfl
    | succ k ih => rw [Function.iterate_succ_apply, hu, ih]
  · intro h
    refine ⟨by simp [Bullet.update, h], by simp [Bullet.update, h], ?_⟩
    cases hout : outOfWorld b.dest.1 b.dest.2 b.size <;>
      simp [Bullet.update, h, hout]

theorem bullet_update_contract_witness :
    Bullet.update^[2] ⟨100, 100, Dir.UP, true, "#FFFF00", 6, 6, false⟩ =
      ⟨100, 100, Dir.UP, true, "#FFFF00", 6, 6, false⟩ ∧
    (Bullet.update ⟨1282, 300, Dir.RIGHT, false, "#FF8800", 6, 6, true⟩).x = 1288 ∧
    (Bullet.update ⟨1282, 300, Dir.RIGHT, false, "#FF8800", 6, 6, true⟩).alive = false :=
  ⟨(bullet_update_contract _).1 rfl 2,
   ((bullet_update_contract _).2 rfl).1.trans (by with_unfolding_all decide),
   ((bullet_update_contract ⟨1282, 300, Dir.RIGHT, false, "#FF8800", 6, 6, true⟩).2
      rfl).2.2.mpr (by with_unfolding_all decide)⟩

/-- Claim C8: when `Tank.move` switches the movement axis, the off-axis
coordinate immediately after the axis switch equals `snapToGrid` of its
pre-switch value, which is a nearest multiple of the wall-cell size (36);
the on-axis coordinate is untouched by the snap. -/
theorem move_axis_change_snaps_to_nearest_grid (t : Tank) (dir : Dir) :
    (t.direction.isVertical = false → dir.isVertical = true →
      (t.snapPhase dir).x = snapToGrid t.x ∧ (t.snapPhase dir).y = t.y ∧
      IsNearestGridMultiple ((t.snapPhase dir).x) t.x) ∧
    (t.direction.isVertical = true → dir.isVertical = false →
      (t.snapPhase dir).y = snapToGrid t.y ∧ (t.snapPhase dir).x = t.x ∧
      IsNearestGridMultiple ((t.snapPhase dir).y) t.y) := by
  constructor
  · intro h1 h2
    refine ⟨by simp [Tank.snapPhase, h1, h2], by simp [Tank.snapPhase, h1, h2], ?_⟩
    have hx : (t.snapPhase dir).x = snapToGrid t.x := by simp [Tank.snapPhase, h1, h2]
    rw [hx]
    exact snapToGrid_nearest t.x
  · intro h1 h2
    refine ⟨by simp [Tank.snapPhase, h1, h2], by simp [Tank.snapPhase, h1, h2], ?_⟩
    have hy : (t.snapPhase dir).y = snapToGrid t.y := by simp [Tank.snapPhase, h1, h2]
    rw [hy]
    exact snapToGrid_nearest t.y

theorem move_axis_change_snaps_to_nearest_grid_witness :
    (Tank.snapPhase (Tank.make 52 70 Dir.LEFT true 0) Dir.UP).x = snapToGrid 52 ∧
    IsNearestGridMultiple ((Tank.snapPhase (Tank.make 52 70 Dir.LEFT true 0) Dir.UP).x) 52 := by
  have h := (move_axis_change_snaps_to_nearest_grid (Tank.make 52 70 Dir.LEFT true 0) Dir.UP).1
    rfl rfl
  exact ⟨h.1, h.2.2⟩

lemma Tank.snapPhase_direction (t : Tank) (dir : Dir) : (t.snapPhase dir).direction = dir := by
  simp only [Tank.snapPhase]
  split
  · split <;> rfl
  · rfl

lemma Tank.move_alive_eq (t : Tank) (dir : Dir) (walls : List Wall) (others : List Tank)
    (halive : t.alive = true) :
    t.move dir walls others =
      (if (t.snapPhase dir).moveBlocked
          (shrinkBounds ((t.snapPhase dir).tentativeX dir) ((t.snapPhase dir).tentativeY dir)
            (t.snapPhase dir).size) walls others
       then t.snapPhase dir
       else { t.snapPhase dir with x := (t.snapPhase dir).tentativeX dir,
                                   y := (t.snapPhase dir).tentativeY dir }) := by
  simp [Tank.move, halive]

/-- Claim C2 (amended): for every alive tank, if the tentative bounding box
computed by `Tank.move` overlaps an alive wall or an alive other tank, the
positional advance is abandoned — but the facing direction is still updated to
the requested direction, and the off-axis grid snap performed on an axis
change is retained (the result is exactly the post-snap state); if no overlap
occurs, the advanced (clamped) position and the new direction are committed. -/
theorem tank_move_frame_effect (t : Tank) (dir : Dir) (walls : List Wall) (others : List Tank)
    (halive : t.alive = true) :
    (t.move dir walls others).direction = dir ∧
    (Tank.moveCommits t dir walls others = false →
      t.move dir walls others = t.snapPhase dir) ∧
    (Tank.moveCommits t dir walls others = true →
      t.move dir walls others =
        { t.snapPhase dir with x := (t.snapPhase dir).tentativeX dir,
                               y := (t.snapPhase dir).tentativeY dir }) := by
  rw [Tank.move_alive_eq t dir walls others halive]
  unfold Tank.moveCommits
  cases hb : (t.snapPhase dir).moveBlocked
      (shrinkBounds ((t.snapPhase dir).tentativeX dir) ((t.snapPhase dir).tentativeY dir)
        (t.snapPhase dir).size) walls others with
  | false => exact ⟨by simp [Tank.snapPhase_direction], by simp [hb], fun _ => by simp⟩
  | true => exact ⟨by simp [Tank.snapPhase_direction], fun _ => by simp, by simp [hb]⟩

theorem tank_move_frame_effect_witness :
    ((Tank.make 36 38 Dir.UP true 0).move Dir.LEFT [Wall.make 0 36 WallType.STEEL] []) =
      Tank.snapPhase (Tank.make 36 38 Dir.UP true 0) Dir.LEFT :=
  (tank_move_frame_effect (Tank.make 36 38 Dir.UP true 0) Dir.LEFT
    [Wall.make 0 36 WallType.STEEL] [] rfl).2.1 (by with_unfolding_all decide)

/-- Claim C2 counterexample: a tank at (36, 38) facing UP that tries to move
LEFT into the wall at (0, 36) has its move abandoned, yet its direction
becomes LEFT and its y coordinate is snapped from 38 to 36 — so "position and
direction are both unchanged" fails. -/
theorem tank_move_abandoned_changes_direction :
    Tank.moveCommits (Tank.make 36 38 Dir.UP true 0) Dir.LEFT
      [Wall.make 0 36 WallType.STEEL] [] = false ∧
    ((Tank.make 36 38 Dir.UP true 0).move Dir.LEFT [Wall.make 0 36 WallType.STEEL] []).direction ≠
      (Tank.make 36 38 Dir.UP true 0).direction ∧
    ((Tank.make 36 38 Dir.UP true 0).move Dir.LEFT [Wall.make 0 36 WallType.STEEL] []).y ≠
      (Tank.make 36 38 Dir.UP true 0).y := by
  refine ⟨?_, ?_, ?_⟩ <;> with_unfolding_all decide

/-- Claim C4: when all three spawn gates pass (quota not reached, concurrent
cap not reached, cooldown elapsed) but the round-robin target spawn point
overlaps an alive tank, `_spawnEnemies` adds no enemy and leaves
`totalEnemiesSpawned` (and everything else except the restamped
`lastEnemySpawnTime`) unchanged; there is no growing backoff state, so the
spawn is simply retried at the next tick on which the gates pass again. -/
theorem spawn_blocked_no_enemy (now randDraw : ℚ) (s : EngineState)
    (h1 : s.totalEnemiesSpawned < ENEMIES_PER_LEVEL)
    (h2 : s.enemies.length < MAX_ENEMIES)
    (h3 : ENEMY_SPAWN_INTERVAL ≤ now - s.lastEnemySpawnTime)
    (h4 : spawnBlocked { s with lastEnemySpawnTime := now }
      (getEnemySpawnPoints.getD
        (s.totalEnemiesSpawned % getEnemySpawnPoints.length) (0, 0)) = true) :
    spawnEnemies now randDraw s = { s with lastEnemySpawnTime := now } := by
  simp only [spawnEnemies]
  rw [if_neg (not_le.2 h1), if_neg (not_le.2 h2), if_neg (not_lt.2 h3)]
  simp
  simpa using h4

theorem spawn_blocked_no_enemy_witness :
    spawnEnemies 5000 0
      ⟨GState.PLAYING, 0, 3, 1, 0, 0, none, [Tank.make 72 72 Dir.DOWN false 0], [], [], [], 0⟩ =
      { (⟨GState.PLAYING, 0, 3, 1, 0, 0, none, [Tank.make 72 72 Dir.DOWN false 0], [], [], [], 0⟩ :
          EngineState) with lastEnemySpawnTime := 5000 } :=
  spawn_blocked_no_enemy 5000 0 _ (by decide) (by decide)
    (by with_unfolding_all decide) (by with_unfolding_all decide)

/-- Claim C6: `generateMap` consults nothing but its `level` argument and the
process-fixed `pseudoRandom` hash (no wall-clock time, no fresh randomness), so
within one process — i.e. for one fixed hash function — two calls with the same
level yield identical wall lists (same count, same x/y/type, same order). -/
theorem generateMap_deterministic (pr1 pr2 : ℕ → ℕ) (level : ℕ)
    (h : ∀ n, pr1 n = pr2 n) :
    generateMap pr1 level = generateMap pr2 level := by
  have hpr : pr1 = pr2 := funext h
  rw [hpr]

theorem generateMap_deterministic_witness :
    generateMap (fun n => n) 5 = generateMap (fun n => n) 5 :=
  generateMap_deterministic (fun n => n) (fun n => n) 5 (fun _ => rfl)

lemma length_filterMap_if {α β : Type} (q : α → Bool) (g : α → β) (l : List α) :
    (l.filterMap (fun a => if q a then none else some (g a))).length =
    (l.filter (fun a => !q a)).length := by
  induction l with
  | nil => rfl
  | cons a l ih =>
    cases hq : q a <;> simp [List.filterMap_cons, List.filter_cons, hq, ih]

/-- Claim C5 (amended): step 4 of `generateMap` makes `min(level, 5)`
pseudo-random picks, but pushes a STEEL wall only for picks whose cell is not
reserved — so the number of extra STEEL walls equals the number of unreserved
picks, which is at most (not always equal to) `min(level, 5)`. -/
theorem extraSteel_count_eq_unreserved (pr : ℕ → ℕ) (level : ℕ) :
    (extraSteelWalls pr level).length =
      ((List.range (min level 5)).filter fun i =>
        !(isReserved (2 + pr (i * 31 + level * 7) % (COLS - 4))
                     (2 + pr (i * 37 + level * 11) % (ROWS - 4)))).length ∧
    (extraSteelWalls pr level).length ≤ min level 5 := by
  constructor
  · unfold extraSteelWalls
    exact length_filterMap_if _ _ _
  · unfold extraSteelWalls
    exact le_trans (List.length_filterMap_le _ _) (le_of_eq (List.length_range _))

/-- The values of the source `pseudoRandom(n)` — that is,
`Math.abs(Math.floor(Math.sin(n * 9301 + 49297) * 233280))` evaluated on IEEE
double precision — at the ten arguments `i * 31 + 35` and `i * 37 + 55`
(`i < 5`) used by step 4 of `generateMap(5)`.  Every one of these sine values
is at distance at least 0.03 from the nearest integer after scaling by 233280,
so the tabulated floors are stable across faithful `Math.sin`
implementations.  All other arguments are irrelevant to the theorem below. -/
def prLevel5 : ℕ → ℕ
  | 35 => 174374
  | 55 => 171905
  | 66 => 204089
  | 92 => 39683
  | 97 => 38776
  | 128 => 229851
  | 129 => 109087
  | 159 => 113942
  | 166 => 212368
  | 203 => 227090
  | _ => 0

/-- Claim C5 counterexample: at level 5 the pick `i = 0` lands on cell
(32, 3), inside the reserved zone of the enemy spawn cell (32, 2), so only 4
extra STEEL walls are added although `min(level, 5) = 5`. -/
theorem extraSteel_count_deficit_at_level_5 :
    (extraSteelWalls prLevel5 5).length = 4 ∧ min 5 5 = 5 := by
  constructor
  · with_unfolding_all decide
  · rfl

/-- How one tick of collision resolution can change a wall: it is either
untouched or has (only) its `alive` flag cleared. -/
def WallEvolve (wIn wOut : Wall) : Prop :=
  wOut = wIn ∨ wOut = { wIn with alive := false }

/-- The fate of an enemy bullet during collision resolution against an
invincible player: it is either completely unchanged (it passes through the
player), or it was alive and hit an alive wall, in which case only its `alive`
flag is cleared.  It is never killed by the player interaction. -/
def EnemyBulletFate (walls : List Wall) (bIn bOut : Bullet) : Prop :=
  bIn.isPlayerBullet = false →
    bOut = bIn ∨
    (bOut = { bIn with alive := false } ∧ bIn.alive = true ∧
      ∃ w ∈ walls, w.alive = true ∧ rectsOverlap bIn.getBounds w.getBounds = true)

/-- Every explosion of the new list is either an old one or has a color other
than `"#00FF66"` — and `"#00FF66"` is the color used exclusively by the
player-hit branch of `_checkCollisions`, so no player-hit explosion was
added. -/
def NoPlayerHitExplosionAdded (old new : List Explosion) : Prop :=
  ∀ e ∈ new, e ∈ old ∨ e.color ≠ "#00FF66"

lemma forall₂_mem_right {α β : Type} {r : α → β → Prop} :
    ∀ {l₁ : List α} {l₂ : List β}, List.Forall₂ r l₁ l₂ → ∀ y ∈ l₂, ∃ x ∈ l₁, r x y := by
  intro l₁ l₂ h
  induction h with
  | nil => intro y hy; simp at hy
  | cons hr _ ih =>
    intro y hy
    rcases List.mem_cons.mp hy with rfl | hy'
    · exact ⟨_, List.mem_cons_self _ _, hr⟩
    · obtain ⟨x, hx, hrx⟩ := ih y hy'
      exact ⟨x, List.mem_cons_of_mem _ hx, hrx⟩

lemma wallEvolve_refl (l : List Wall) : List.Forall₂ WallEvolve l l := by
  induction l with
  | nil => exact List.Forall₂.nil
  | cons w l ih => exact List.Forall₂.cons (Or.inl rfl) ih

lemma wallEvolve_trans {a b c : Wall} (h1 : WallEvolve a b) (h2 : WallEvolve b c) :
    WallEvolve a c := by
  rcases h1 with rfl | rfl <;> rcases h2 with rfl | rfl
  · exact Or.inl rfl
  · exact Or.inr rfl
  · exact Or.inr rfl
  · exact Or.inr rfl

lemma forall₂_wallEvolve_trans :
    ∀ {l₁ l₂ l₃ : List Wall}, List.Forall₂ WallEvolve l₁ l₂ →
      List.Forall₂ WallEvolve l₂ l₃ → List.Forall₂ WallEvolve l₁ l₃ := by
  intro l₁ l₂ l₃ h1
  induction h1 generalizing l₃ with
  | nil => intro h2; cases h2; exact List.Forall₂.nil
  | cons hr _ ih =>
    intro h2
    cases h2 with
    | cons hr2 hrest2 => exact List.Forall₂.cons (wallEvolve_trans hr hr2) (ih hrest2)

lemma wallEvolve_alive {wIn wOut : Wall} (h : WallEvolve wIn wOut) (ha : wOut.alive = true) :
    wIn.alive = true ∧ wIn.getBounds = wOut.getBounds := by
  rcases h with rfl | rfl
  · exact ⟨ha, rfl⟩
  · simp at ha

lemma scanWalls_walls_evolve (b : Bullet) :
    ∀ ws : List Wall, List.Forall₂ WallEvolve ws (scanWalls b ws).walls := by
  intro ws
  induction ws with
  | nil => exact List.Forall₂.nil
  | cons w ws ih =>
    simp only [scanWalls]
    split
    · split
      · exact List.Forall₂.cons (Or.inr rfl) (wallEvolve_refl ws)
      · exact List.Forall₂.cons (Or.inl rfl) (wallEvolve_refl ws)
    · exact List.Forall₂.cons (Or.inl rfl) ih

lemma scanWalls_hit_exists (b : Bullet) :
    ∀ ws : List Wall, (scanWalls b ws).hit = true →
      ∃ w ∈ ws, w.alive = true ∧ rectsOverlap b.getBounds w.getBounds = true := by
  intro ws
  induction ws with
  | nil => intro h; exact absurd h (by simp [scanWalls])
  | cons w ws ih =>
    intro h
    simp only [scanWalls] at h
    by_cases hcond : (w.alive && rectsOverlap b.getBounds w.getBounds) = true
    · obtain ⟨ha, hov⟩ := Bool.and_eq_true_iff.mp hcond
      exact ⟨w, List.mem_cons_self _ _, ha, hov⟩
    · rw [if_neg hcond] at h
      obtain ⟨w', hmem, hrest⟩ := ih h
      exact ⟨w', List.mem_cons_of_mem _ hmem, hrest⟩

lemma scanWalls_exps_color (b : Bullet) :
    ∀ ws : List Wall, ∀ e ∈ (scanWalls b ws).exps,
      e.color = "#AA6633" ∨ e.color = "#CCCCCC" := by
  intro ws
  induction ws with
  | nil => intro e he; simp [scanWalls] at he
  | cons w ws ih =>
    intro e he
    simp only [scanWalls] at he
    by_cases hcond : (w.alive && rectsOverlap b.getBounds w.getBounds) = true
    · rw [if_pos hcond] at he
      by_cases hd : w.destructible = true
      · rw [if_pos hd] at he
        rcases List.mem_singleton.mp he with rfl
        exact Or.inl rfl
      · rw [if_neg hd] at he
        rcases List.mem_singleton.mp he with rfl
        exact Or.inr rfl
    · rw [if_neg hcond] at he
      exact ih e he

lemma scanEnemies_exps_color (b : Bullet) :
    ∀ es : List Tank, ∀ e ∈ (scanEnemies b es).exps, e.color = "#FF4400" := by
  intro es
  induction es with
  | nil => intro e he; simp [scanEnemies] at he
  | cons t es ih =>
    intro e he
    simp only [scanEnemies] at he
    by_cases hcond : (t.alive && rectsOverlap b.getBounds t.getBounds) = true
    · rw [if_pos hcond] at he
      rcases List.mem_singleton.mp he with rfl
      rfl
    · rw [if_neg hcond] at he
      exact ih e he

/-- One iteration of the collision loop against an invincible player: the
player, lives and game state are untouched, walls at most lose their `alive`
flag, no player-hit explosion is added, and an enemy bullet either passes
through or was killed by an alive wall. -/
lemma collideOneBullet_invincible_step (now : ℚ) (s : EngineState) (b : Bullet) (p : Tank)
    (hp : s.player = some p) (hinv : now < p.invincibleUntil) :
    (collideOneBullet now s b).1.player = s.player ∧
    (collideOneBullet now s b).1.lives = s.lives ∧
    (collideOneBullet now s b).1.gstate = s.gstate ∧
    List.Forall₂ WallEvolve s.walls (collideOneBullet now s b).1.walls ∧
    NoPlayerHitExplosionAdded s.explosions (collideOneBullet now s b).1.explosions ∧
    EnemyBulletFate s.walls b (collideOneBullet now s b).2 := by
  have hInv : p.isInvincible now = true := by
    simp [Tank.isInvincible, hinv]
  by_cases hal : b.alive = false
  · have hred : collideOneBullet now s b = (s, b) := by
      simp [collideOneBullet, hal]
    rw [hred]
    exact ⟨rfl, rfl, rfl, wallEvolve_refl _, fun e he => Or.inl he, fun _ => Or.inl rfl⟩
  · have hal' : b.alive = true := by
      cases h : b.alive
      · exact absurd h hal
      · rfl
    cases hws : (scanWalls b s.walls).hit with
    | true =>
      have hred : collideOneBullet now s b =
          ({ s with walls := (scanWalls b s.walls).walls,
                    explosions := s.explosions ++ (scanWalls b s.walls).exps },
           { b with alive := false }) := by
        simp [collideOneBullet, hal', hws]
      rw [hred]
      refine ⟨rfl, rfl, rfl, scanWalls_walls_evolve b s.walls, ?_, ?_⟩
      · intro e he
        rcases List.mem_append.mp he with h | h
        · exact Or.inl h
        · rcases scanWalls_exps_color b s.walls e h with hc | hc <;>
            exact Or.inr (by rw [hc]; decide)
      · intro _
        exact Or.inr ⟨rfl, hal', scanWalls_hit_exists b s.walls hws⟩
    | false =>
      by_cases hpb : b.isPlayerBullet = true
      · cases hes : (scanEnemies b s.enemies).hit with
        | true =>
          have hred : collideOneBullet now s b =
              ({ s with enemies := (scanEnemies b s.enemies).enemies,
                        score := s.score + 100,
                        enemiesDestroyed := s.enemiesDestroyed + 1,
                        explosions := s.explosions ++ (scanEnemies b s.enemies).exps },
               { b with alive := false }) := by
            simp [collideOneBullet, hal', hws, hpb, hes]
          rw [hred]
          refine ⟨rfl, rfl, rfl, wallEvolve_refl _, ?_, ?_⟩
          · intro e he
            rcases List.mem_append.mp he with h | h
            · exact Or.inl h
            · exact Or.inr (by rw [scanEnemies_exps_color b s.enemies e h]; decide)
          · intro h
            rw [hpb] at h
            exact absurd h (by decide)
        | false =>
          have hred : collideOneBullet now s b = (s, b) := by
            simp [collideOneBullet, hal', hws, hpb, hes]
          rw [hred]
          exact ⟨rfl, rfl, rfl, wallEvolve_refl _, fun e he => Or.inl he, fun _ => Or.inl rfl⟩
      · have hpb' : b.isPlayerBullet = false := by
          cases h : b.isPlayerBullet
          · rfl
          · exact absurd h hpb
        have hred : collideOneBullet now s b = (s, b) := by
          simp [collideOneBullet, hal', hws, hpb', hp, hInv]
        rw [hred]
        exact ⟨rfl, rfl, rfl, wallEvolve_refl _, fun e he => Or.inl he, fun _ => Or.inl rfl⟩

lemma collideBullets_invincible_general (now : ℚ) (p : Tank) (hinv : now < p.invincibleUntil) :
    ∀ (bs : List Bullet) (s : EngineState), s.player = some p →
    (collideBullets now s bs).1.player = s.player ∧
    (collideBullets now s bs).1.lives = s.lives ∧
    (collideBullets now s bs).1.gstate = s.gstate ∧
    List.Forall₂ WallEvolve s.walls (collideBullets now s bs).1.walls ∧
    NoPlayerHitExplosionAdded s.explosions (collideBullets now s bs).1.explosions ∧
    List.Forall₂ (EnemyBulletFate s.walls) bs (collideBullets now s bs).2 := by
  intro bs
  induction bs with
  | nil =>
    intro s _
    exact ⟨rfl, rfl, rfl, wallEvolve_refl _, fun e he => Or.inl he, List.Forall₂.nil⟩
  | cons b bs ih =>
    intro s hp
    obtain ⟨hpl, hlv, hgs, hwalls1, hexp1, hfate1⟩ :=
      collideOneBullet_invincible_step now s b p hp hinv
    have hp1 : (collideOneBullet now s b).1.player = some p := hpl.trans hp
    obtain ⟨hpl2, hlv2, hgs2, hwalls2, hexp2, hfate2⟩ := ih (collideOneBullet now s b).1 hp1
    simp only [collideBullets]
    refine ⟨hpl2.trans hpl, hlv2.trans hlv, hgs2.trans hgs,
      forall₂_wallEvolve_trans hwalls1 hwalls2, ?_, ?_⟩
    · intro e he
      rcases hexp2 e he with h | h
      · exact hexp1 e h
      · exact Or.inr h
    · refine List.Forall₂.cons hfate1 ?_
      refine List.Forall₂.imp ?_ hfate2
      intro bIn bOut hf hpb
      rcases hf hpb with h | ⟨hb, hba, w', hw'mem, hw'alive, hw'ov⟩
      · exact Or.inl h
      · right
        refine ⟨hb, hba, ?_⟩
        obtain ⟨w0, hw0mem, hrel⟩ := forall₂_mem_right hwalls1 w' hw'mem
        obtain ⟨hw0alive, hbounds⟩ := wallEvolve_alive hrel hw'alive
        exact ⟨w0, hw0mem, hw0alive, by rw [hbounds]; exact hw'ov⟩

/-- Claim C3 (amended): while the player is invincible (`now <
invincibleUntil`), enemy-bullet overlaps with the player are ignored
*entirely* by `_checkCollisions`, in every tick and for every bullet list: the
player object (position, alive flag), the lives counter and the game state are
unchanged; no player-hit explosion is added; and — contrary to the claim —
each enemy bullet is *not* killed by the player: it is completely unchanged
(it passes through) unless it was alive and hit an alive wall, which only
clears its `alive` flag. -/
theorem invincible_hit_ignored (now : ℚ) (s : EngineState) (p : Tank)
    (hp : s.player = some p) (hinv : now < p.invincibleUntil) :
    ((checkCollisions now s).player = s.player ∧
     (checkCollisions now s).lives = s.lives ∧
     (checkCollisions now s).gstate = s.gstate) ∧
    NoPlayerHitExplosionAdded s.explosions (checkCollisions now s).explosions ∧
    List.Forall₂ (EnemyBulletFate s.walls) s.bullets (checkCollisions now s).bullets := by
  obtain ⟨h1, h2, h3, _, h5, h6⟩ :=
    collideBullets_invincible_general now p hinv s.bullets s hp
  exact ⟨⟨h1, h2, h3⟩, h5, h6⟩

def c3Player : Tank := { Tank.make 100 100 Dir.UP true 0 with invincibleUntil := 1000 }

def c3Bullet : Bullet := ⟨110, 110, Dir.DOWN, false, "#FF8800", 6, 6, true⟩

def c3State : EngineState :=
  ⟨GState.PLAYING, 0, 3, 1, 0, 0, some c3Player, [], [c3Bullet], [], [], 0⟩

theorem invincible_hit_ignored_witness :
    (checkCollisions 500 c3State).player = c3State.player ∧
    (checkCollisions 500 c3State).lives = c3State.lives ∧
    (checkCollisions 500 c3State).gstate = c3State.gstate ∧
    NoPlayerHitExplosionAdded c3State.explosions (checkCollisions 500 c3State).explosions ∧
    List.Forall₂ (EnemyBulletFate c3State.walls) c3State.bullets
      (checkCollisions 500 c3State).bullets :=
  have h := invincible_hit_ignored 500 c3State c3Player rfl (by with_unfolding_all decide)
  ⟨h.1.1, h.1.2.1, h.1.2.2, h.2.1, h.2.2⟩

/-- Claim C3 counterexample: an enemy bullet overlapping the alive, invincible
player at `now = 500` does **not** get its `alive` flag set to `false` — the
whole hit branch (including `bullet.alive = false`) is guarded by
`!isInvincible(now)`, so the bullet survives the tick, contradicting "the
bullet's alive flag becomes false". -/
theorem invincible_hit_bullet_survives :
    rectsOverlap c3Bullet.getBounds c3Player.getBounds = true ∧
    Tank.isInvincible c3Player 500 = true ∧
    c3State.bullets = [c3Bullet] ∧
    (checkCollisions 500 c3State).bullets = [c3Bullet] ∧
    c3Bullet.alive = true := by
  refine ⟨by with_unfolding_all decide, by with_unfolding_all decide, rfl,
    by with_unfolding_all decide, rfl⟩

/-- An integer-valued rational.  Every reachable coordinate in the game is one:
spawn points are multiples of 36, speeds are the integers 2, grid snapping
produces multiples of 36, and the clamp bounds are integers. -/
abbrev QInt (q : ℚ) : Prop := q.den = 1

lemma QInt.exists_int {q : ℚ} (h : QInt q) : ∃ z : ℤ, q = (z : ℚ) := by
  refine ⟨q.num, ?_⟩
  conv_lhs => rw [← q.num_div_den]
  rw [h]
  norm_num

lemma QInt.intCast (z : ℤ) : QInt (z : ℚ) := Rat.den_intCast z

lemma QInt.add {a b : ℚ} (ha : QInt a) (hb : QInt b) : QInt (a + b) := by
  obtain ⟨x, rfl⟩ := ha.exists_int
  obtain ⟨y, rfl⟩ := hb.exists_int
  rw [← Int.cast_add]
  exact QInt.intCast _

lemma QInt.sub {a b : ℚ} (ha : QInt a) (hb : QInt b) : QInt (a - b) := by
  obtain ⟨x, rfl⟩ := ha.exists_int
  obtain ⟨y, rfl⟩ := hb.exists_int
  rw [← Int.cast_sub]
  exact QInt.intCast _

lemma QInt.min_closed {a b : ℚ} (ha : QInt a) (hb : QInt b) : QInt (min a b) := by
  rcases min_choice a b with h | h <;> rw [h] <;> assumption

lemma QInt.max_closed {a b : ℚ} (ha : QInt a) (hb : QInt b) : QInt (max a b) := by
  rcases max_choice a b with h | h <;> rw [h] <;> assumption

lemma QInt.snap (q : ℚ) : QInt (snapToGrid q) := by
  have h : snapToGrid q = ((jsRound (q / WALL_SIZE) * 36 : ℤ) : ℚ) := by
    rw [snapToGrid]
    push_cast
    norm_num [WALL_SIZE]
  rw [h]
  exact QInt.intCast _

lemma Tank.snapPhase_size (t : Tank) (dir : Dir) : (t.snapPhase dir).size = t.size := by
  simp only [Tank.snapPhase]
  split
  · split <;> rfl
  · rfl

lemma Tank.snapPhase_speed (t : Tank) (dir : Dir) : (t.snapPhase dir).speed = t.speed := by
  simp only [Tank.snapPhase]
  split
  · split <;> rfl
  · rfl

lemma Tank.snapPhase_x_qint (t : Tank) (dir : Dir) (hx : QInt t.x) :
    QInt (t.snapPhase dir).x := by
  simp only [Tank.snapPhase]
  split
  · split
    · exact QInt.snap t.x
    · exact hx
  · exact hx

lemma Tank.snapPhase_y_qint (t : Tank) (dir : Dir) (hy : QInt t.y) :
    QInt (t.snapPhase dir).y := by
  simp only [Tank.snapPhase]
  split
  · split
    · exact hy
    · exact QInt.snap t.y
  · exact hy

lemma qint_DESIGN_WIDTH : QInt DESIGN_WIDTH := rfl

lemma qint_DESIGN_HEIGHT : QInt DESIGN_HEIGHT := rfl

lemma qint_zero : QInt (0 : ℚ) := rfl

lemma Tank.tentativeX_qint (t1 : Tank) (dir : Dir)
    (hx : QInt t1.x) (hsp : QInt t1.speed) (hsz : QInt t1.size) :
    QInt (t1.tentativeX dir) := by
  have hW : QInt (DESIGN_WIDTH - t1.size) := QInt.sub qint_DESIGN_WIDTH hsz
  cases dir <;>
    exact QInt.max_closed qint_zero (QInt.min_closed hW
      (by first | exact hx | exact QInt.sub hx hsp | exact QInt.add hx hsp))

lemma Tank.tentativeY_qint (t1 : Tank) (dir : Dir)
    (hy : QInt t1.y) (hsp : QInt t1.speed) (hsz : QInt t1.size) :
    QInt (t1.tentativeY dir) := by
  have hH : QInt (DESIGN_HEIGHT - t1.size) := QInt.sub qint_DESIGN_HEIGHT hsz
  cases dir <;>
    exact QInt.max_closed qint_zero (QInt.min_closed hH
      (by first | exact hy | exact QInt.sub hy hsp | exact QInt.add hy hsp))

/-- On integer-valued rectangles, the 0.5-unit tolerance is invisible: if the
full (unshrunk) boxes overlap, so do the shrunk test boxes.  This is why the
tolerance of `Tank.move` never lets a tank end up inside a wall or tank whose
coordinates are integers. -/
lemma shrunk_overlap_of_overlap {nx ny sz bx bY bw bh : ℚ}
    (hnx : QInt nx) (hny : QInt ny) (hsz : QInt sz)
    (hbx : QInt bx) (hby : QInt bY) (hbw : QInt bw) (hbh : QInt bh)
    (h : rectsOverlap ⟨nx, ny, sz, sz⟩ ⟨bx, bY, bw, bh⟩ = true) :
    rectsOverlap (shrinkBounds nx ny sz) ⟨bx, bY, bw, bh⟩ = true := by
  obtain ⟨a, rfl⟩ := hnx.exists_int
  obtain ⟨b, rfl⟩ := hny.exists_int
  obtain ⟨s, rfl⟩ := hsz.exists_int
  obtain ⟨x, rfl⟩ := hbx.exists_int
  obtain ⟨y, rfl⟩ := hby.exists_int
  obtain ⟨w, rfl⟩ := hbw.exists_int
  obtain ⟨hgt, rfl⟩ := hbh.exists_int
  simp only [rectsOverlap, shrinkBounds, Bool.and_eq_true, decide_eq_true_eq] at h ⊢
  obtain ⟨⟨⟨h1, h2⟩, h3⟩, h4⟩ := h
  refine ⟨⟨⟨?_, ?_⟩, ?_⟩, ?_⟩
  · have hZ : a < x + w := by exact_mod_cast h1
    have hQ : (a : ℚ) + 1 ≤ (x : ℚ) + (w : ℚ) := by exact_mod_cast Int.add_one_le_iff.mpr hZ
    linarith
  · have hZ : x < a + s := by exact_mod_cast h2
    have hQ : (x : ℚ) + 1 ≤ (a : ℚ) + (s : ℚ) := by exact_mod_cast Int.add_one_le_iff.mpr hZ
    linarith
  · have hZ : b < y + hgt := by exact_mod_cast h3
    have hQ : (b : ℚ) + 1 ≤ (y : ℚ) + (hgt : ℚ) := by exact_mod_cast Int.add_one_le_iff.mpr hZ
    linarith
  · have hZ : y < b + s := by exact_mod_cast h4
    have hQ : (y : ℚ) + 1 ≤ (b : ℚ) + (s : ℚ) := by exact_mod_cast Int.add_one_le_iff.mpr hZ
    linarith

/-- Claim C1: for every alive tank with integer-valued position, speed and
size, and every list of walls and other tanks with integer-valued bounds
(which is the case for every reachable game state: walls sit on the 36-unit
grid and tanks move in integer steps from grid-aligned spawn points), a
committed `Tank.move` — one whose tentative box passed all collision tests —
leaves the tank's full bounding box disjoint from every alive wall's and every
alive other tank's bounding box. -/
theorem tank_move_committed_no_overlap (t : Tank) (dir : Dir)
    (walls : List Wall) (others : List Tank)
    (halive : t.alive = true)
    (hx : QInt t.x) (hy : QInt t.y) (hsp : QInt t.speed) (hsz : QInt t.size)
    (hw : ∀ w ∈ walls, QInt w.x ∧ QInt w.y ∧ QInt w.size)
    (ho : ∀ o ∈ others, QInt o.x ∧ QInt o.y ∧ QInt o.size)
    (hcommit : Tank.moveCommits t dir walls others = true) :
    (∀ w ∈ walls, w.alive = true →
      rectsOverlap ((t.move dir walls others).getBounds) w.getBounds = false) ∧
    (∀ o ∈ others, o.alive = true →
      rectsOverlap ((t.move dir walls others).getBounds) o.getBounds = false) := by
  have hblocked : (t.snapPhase dir).moveBlocked
      (shrinkBounds ((t.snapPhase dir).tentativeX dir) ((t.snapPhase dir).tentativeY dir)
        (t.snapPhase dir).size) walls others = false := by
    unfold Tank.moveCommits at hcommit
    simpa using hcommit
  have hmove : t.move dir walls others =
      { t.snapPhase dir with x := (t.snapPhase dir).tentativeX dir,
                             y := (t.snapPhase dir).tentativeY dir } := by
    rw [Tank.move_alive_eq t dir walls others halive, hblocked]
    simp
  have hnx : QInt ((t.snapPhase dir).tentativeX dir) :=
    Tank.tentativeX_qint _ dir (Tank.snapPhase_x_qint t dir hx)
      (by rw [Tank.snapPhase_speed]; exact hsp) (by rw [Tank.snapPhase_size]; exact hsz)
  have hny : QInt ((t.snapPhase dir).tentativeY dir) :=
    Tank.tentativeY_qint _ dir (Tank.snapPhase_y_qint t dir hy)
      (by rw [Tank.snapPhase_speed]; exact hsp) (by rw [Tank.snapPhase_size]; exact hsz)
  have hns : QInt (t.snapPhase dir).size := by rw [Tank.snapPhase_size]; exact hsz
  have hbounds : (t.move dir walls others).getBounds =
      ⟨(t.snapPhase dir).tentativeX dir, (t.snapPhase dir).tentativeY dir,
        (t.snapPhase dir).size, (t.snapPhase dir).size⟩ := by
    rw [hmove]
    rfl
  simp only [Tank.moveBlocked, Bool.or_eq_false_iff, List.any_eq_false] at hblocked
  obtain ⟨hWalls, hOthers⟩ := hblocked
  constructor
  · intro w hwmem hwal
    cases hval : rectsOverlap ((t.move dir walls others).getBounds) w.getBounds with
    | false => rfl
    | true =>
      exfalso
      obtain ⟨hwx, hwy, hws⟩ := hw w hwmem
      have hfull : rectsOverlap
          ⟨(t.snapPhase dir).tentativeX dir, (t.snapPhase dir).tentativeY dir,
            (t.snapPhase dir).size, (t.snapPhase dir).size⟩ ⟨w.x, w.y, w.size, w.size⟩ = true := by
        rw [← hbounds]
        exact hval
      have hshrunk := shrunk_overlap_of_overlap hnx hny hns hwx hwy hws hws hfull
      apply hWalls w hwmem
      rw [hwal, Bool.true_and]
      exact hshrunk
  · intro o homem hoal
    cases hval : rectsOverlap ((t.move dir walls others).getBounds) o.getBounds with
    | false => rfl
    | true =>
      exfalso
      obtain ⟨hox, hoy, hos⟩ := ho o homem
      have hfull : rectsOverlap
          ⟨(t.snapPhase dir).tentativeX dir, (t.snapPhase dir).tentativeY dir,
            (t.snapPhase dir).size, (t.snapPhase dir).size⟩ ⟨o.x, o.y, o.size, o.size⟩ = true := by
        rw [← hbounds]
        exact hval
      have hshrunk := shrunk_overlap_of_overlap hnx hny hns hox hoy hos hos hfull
      apply hOthers o homem
      rw [hoal, Bool.true_and]
      exact hshrunk

/-- The integrality hypotheses of the collision-soundness theorem are an
invariant: `Tank.move` keeps integer-valued coordinates integer-valued
(snapping yields multiples of 36, stepping adds an integer speed, clamping
meets integer bounds). -/
lemma tank_move_preserves_qint (t : Tank) (dir : Dir)
    (walls : List Wall) (others : List Tank)
    (hx : QInt t.x) (hy : QInt t.y) (hsp : QInt t.speed) (hsz : QInt t.size) :
    QInt (t.move dir walls others).x ∧ QInt (t.move dir walls others).y := by
  by_cases halive : t.alive = true
  · rw [Tank.move_alive_eq t dir walls others halive]
    split
    · exact ⟨Tank.snapPhase_x_qint t dir hx, Tank.snapPhase_y_qint t dir hy⟩
    · refine ⟨?_, ?_⟩
      · exact Tank.tentativeX_qint _ dir (Tank.snapPhase_x_qint t dir hx)
          (by rw [Tank.snapPhase_speed]; exact hsp) (by rw [Tank.snapPhase_size]; exact hsz)
      · exact Tank.tentativeY_qint _ dir (Tank.snapPhase_y_qint t dir hy)
          (by rw [Tank.snapPhase_speed]; exact hsp) (by rw [Tank.snapPhase_size]; exact hsz)
  · have hdead : t.alive = false := by
      cases h : t.alive
      · rfl
      · exact absurd h halive
    simp [Tank.move, hdead]
    exact ⟨hx, hy⟩

theorem tank_move_committed_no_overlap_witness :
    rectsOverlap (((Tank.make 288 288 Dir.UP true 0).move Dir.UP
        [Wall.make 0 0 WallType.STEEL] []).getBounds)
      (Wall.make 0 0 WallType.STEEL).getBounds = false :=
  (tank_move_committed_no_overlap (Tank.make 288 288 Dir.UP true 0) Dir.UP
      [Wall.make 0 0 WallType.STEEL] [] rfl rfl rfl rfl rfl
      (by with_unfolding_all decide) (by simp)
      (by with_unfolding_all decide)).1
    (Wall.make 0 0 WallType.STEEL) (by simp) rfl

end TankBattle
